import Mathlib

/-!
Verification of src/src/debugger/nodeDebugWrapper.ts (NodeDebugWrapper).

The file embeds, as executable Lean definitions, the launch-argument
sanitizer, the control-server port resolution, the reinitialization
HTTP handler, the disconnect sequencing and the prototype-patching
installation performed by NodeDebugWrapper, and proves the specified
properties about them.
-/

namespace NodeDebugWrapper

/-! ## JavaScript primitive models -/

/-- Model of JavaScript parseInt with radix 10: skip leading whitespace,
read an optional sign, then the longest digit prefix; the result is none
(NaN) when no digit follows. Trailing non-digit characters are ignored,
exactly as in JavaScript. -/
def jsParseInt (s : String) : Option Int :=
  let cs := s.toList.dropWhile (fun c => c.isWhitespace)
  let signAndRest : Int × List Char :=
    match cs with
    | '-' :: rest => (-1, rest)
    | '+' :: rest => (1, rest)
    | _ => (1, cs)
  let ds := signAndRest.2.takeWhile (fun c => c.isDigit)
  if ds.isEmpty then none
  else some (signAndRest.1 * (ds.foldl (fun a c => a * 10 + (c.toNat - 48)) 0 : Nat))

/-- Model of the JavaScript expression value-or-default on a string
operand. The operand is none when the field is null or undefined; the
empty string is the only falsy string, so it also selects the default. -/
def jsOrString (v : Option String) (dflt : String) : String :=
  match v with
  | some s => if s = "" then dflt else s
  | none => dflt

/-- Embeds NodeDebugWrapper.isNullOrUndefined: true exactly when the
value is undefined or null, which the embedding represents as none. -/
def isNullOrUndefined (v : Option α) : Bool :=
  v.isNone

/-! ## POSIX path model

The source computes the project root with a resolve call on the posix
path of the launched program. The model below covers the case the code
exercises: an absolute first argument joined with a relative second one,
then normalized. -/

/-- Split a list of characters at every slash, accumulating the current
component in reverse. -/
def splitSlashAux : List Char → List Char → List String
  | [], acc => [String.mk acc.reverse]
  | c :: cs, acc =>
    if c = '/' then String.mk acc.reverse :: splitSlashAux cs []
    else splitSlashAux cs (c :: acc)

/-- Split a path string into its slash-separated components. -/
def splitSlash (s : String) : List String :=
  splitSlashAux s.toList []

/-- Join path components with slashes. -/
def joinSlash : List String → String
  | [] => ""
  | [x] => x
  | x :: xs => x ++ "/" ++ joinSlash xs

/-- Normalize an absolute POSIX path: drop empty and dot components,
let a dotdot component pop the previous component (or vanish at the
root), and rebuild the path from the surviving components. -/
def normalizeAbs (s : String) : String :=
  let comps := (splitSlash s).filter (fun c => c ≠ "" && c ≠ ".")
  let stack := comps.foldl
    (fun st c => if c = ".." then st.dropLast else st ++ [c]) ([] : List String)
  "/" ++ joinSlash stack

/-- Model of the node resolve call for an absolute base path and a
relative second argument: join with a separator and normalize. -/
def pathResolve (base rel : String) : String :=
  normalizeAbs (base ++ "/" ++ rel)

/-! ## Data model -/

/-- The extra logcat arguments field: a JavaScript value that is either
an array of strings or a plain scalar string. -/
inductive LogCatArgs where
  | arr (xs : List String)
  | scalar (s : String)
deriving DecidableEq, Repr

/-- The fields of ILaunchArgs that the wrapped launch operation reads.
Optional fields are none when the launch configuration leaves them
undefined or null. -/
structure LaunchArgs where
  program : String
  platform : String
  internalDebuggerPort : Option String
  iosRelativeProjectPath : Option String
  target : Option String
  logCatArguments : Option LogCatArgs
deriving DecidableEq, Repr

/-- Modelled from the spec: the fixed platform default constant for the
relative project path, exported by the IOSPlatform module that is not
part of the given sources; the spec only calls it a fixed platform
default constant, so its concrete value is irrelevant to every claim. -/
def DEFAULT_IOS_PROJECT_RELATIVE_PATH : String :=
  "ios"

/-! ## Launch-argument sanitization -/

/-- Embeds NodeDebugWrapper.parseLogCatArguments: an array is joined
with single spaces, any other value is returned unchanged. -/
def parseLogCatArguments (userProvidedLogCatArguments : LogCatArgs) : String :=
  match userProvidedLogCatArguments with
  | .arr xs => String.intercalate " " xs
  | .scalar s => s

/-- Embeds the port computation of the wrapped launch: parseInt of the
internalDebuggerPort argument with radix 10, with 9090 substituted when
the parse yields NaN or any falsy number (zero). -/
def debugServerListeningPort (internalDebuggerPort : Option String) : Int :=
  match internalDebuggerPort.bind jsParseInt with
  | some n => if n = 0 then 9090 else n
  | none => 9090

/-- Embeds the assignment to args.args in the wrapped launch: the fixed
four-slot vector, extended by the parsed logcat string exactly when the
logCatArguments field is defined. -/
def sanitizedArgs (args : LaunchArgs) : List String :=
  let base : List String :=
    [args.platform,
     toString (debugServerListeningPort args.internalDebuggerPort),
     args.iosRelativeProjectPath.getD DEFAULT_IOS_PROJECT_RELATIVE_PATH,
     jsOrString args.target "simulator"]
  match args.logCatArguments with
  | some lc => base ++ [parseLogCatArguments lc]
  | none => base

/-- Embeds the project-root computation of the wrapped launch: resolve
the program path against a double parent step. -/
def projectRootPath (args : LaunchArgs) : String :=
  pathResolve args.program "../.."

end NodeDebugWrapper

namespace NodeDebugWrapper

/-! ## Observable events of the wrapped launch operation

The wrapped launch has side effects beyond the argument rewrite:
telemetry reassignment, the server listen attempt, the error-event
handler installed on the server, and the final delegation to the
captured original launch. The trace below records them in order. A
listen failure is delivered asynchronously through the error handler,
so its events follow the synchronous body of the wrapped launch. -/

/-- One observable action of the wrapped launch operation. -/
inductive LaunchEvent where
  | reassignTelemetry (rootPath : String)
  | serverListen (port : Int)
  | callOriginalLaunch (args : List String)
  | telemetrySimpleEvent (name : String)
  | outputStderrEvent (message : String)
  | outputBreakpointsWarningEvent
deriving DecidableEq, Repr

/-- Embeds the body of the wrapped launchRequest as an event trace:
compute the project root and rebind telemetry, attempt to listen on the
resolved port, rewrite args.args to the sanitized vector and delegate
to the captured original launch. When the listen attempt fails with
some error text, the error handler additionally reports the telemetry
event and the two adapter output events, asynchronously after the body. -/
def launchRequest (args : LaunchArgs) (bindError : Option String) : List LaunchEvent :=
  [LaunchEvent.reassignTelemetry (projectRootPath args),
   LaunchEvent.serverListen (debugServerListeningPort args.internalDebuggerPort),
   LaunchEvent.callOriginalLaunch (sanitizedArgs args)] ++
  match bindError with
  | none => []
  | some err =>
    [LaunchEvent.telemetrySimpleEvent "reinitializeServerError",
     LaunchEvent.outputStderrEvent ("Error in debug adapter server: " ++ err),
     LaunchEvent.outputBreakpointsWarningEvent]

/-- Recognizer for the delegation event of a launch trace. -/
def isCallOriginalLaunch : LaunchEvent → Bool
  | .callOriginalLaunch _ => true
  | _ => false

/-! ## The wrapped disconnect operation -/

/-- Outcome of the auxiliary stop-monitoring call: the promise
resolves, the promise rejects with a reason, or the client construction
or the call itself throws synchronously. -/
inductive StopOutcome where
  | resolves
  | rejects (reason : String)
  | throwsSync (message : String)
deriving DecidableEq, Repr

/-- One observable action of the wrapped disconnect operation. The
receiver, response and args payloads are kept abstract. -/
inductive DisconnectEvent (σ ρ α : Type) where
  | callOriginalDisconnect (receiver : σ) (response : ρ) (args : α)
  | stderrWarnAsync (reason : String)
  | stderrWarnSync (message : String)
deriving DecidableEq, Repr

/-- Embeds the body of the wrapped disconnectRequest as an event trace.
On a resolved stop-monitoring promise the finally combinator runs the
original disconnect and the done combinator does nothing. On a rejected
promise the finally combinator still runs the original disconnect, then
the done error continuation writes the warning with the reason. On a
synchronous throw the catch block writes the warning with the exception
message and then runs the original disconnect. -/
def disconnectRequest (outcome : StopOutcome) (receiver : σ) (response : ρ) (args : α) :
    List (DisconnectEvent σ ρ α) :=
  match outcome with
  | .resolves =>
    [DisconnectEvent.callOriginalDisconnect receiver response args]
  | .rejects reason =>
    [DisconnectEvent.callOriginalDisconnect receiver response args,
     DisconnectEvent.stderrWarnAsync reason]
  | .throwsSync message =>
    [DisconnectEvent.stderrWarnSync message,
     DisconnectEvent.callOriginalDisconnect receiver response args]

/-- Recognizer for the delegation event of a disconnect trace. -/
def isCallOriginalDisconnect : DisconnectEvent σ ρ α → Bool
  | .callOriginalDisconnect _ _ _ => true
  | _ => false

/-! ## Installation on the session prototype -/

/-- An operation slot value on the NodeDebugSession prototype: either
an original handler, or one of the wrapper closures installed by the
NodeDebugWrapper, each capturing whatever the slot held at wrap time
(none models capturing an undefined slot). -/
inductive Handler where
  | original (name : String)
  | wrappedLaunch (captured : Option Handler)
  | wrappedDisconnect (captured : Option Handler)

/-- Whether a slot value is one of the wrapper closures. -/
def Handler.isWrapper : Handler → Bool
  | .original _ => false
  | .wrappedLaunch _ => true
  | .wrappedDisconnect _ => true

/-- The three named operation slots of the NodeDebugSession prototype;
a slot is none when the operation is absent. -/
structure SessionPrototype where
  launchRequestSlot : Option Handler
  attachRequestSlot : Option Handler
  disconnectRequestSlot : Option Handler

/-- Embeds customizeLaunchRequest: read the current launchRequest slot
without any presence check and overwrite the slot with a wrapper
capturing what was read. -/
def customizeLaunchRequest (p : SessionPrototype) : SessionPrototype :=
  { p with launchRequestSlot := some (Handler.wrappedLaunch p.launchRequestSlot) }

/-- Embeds customizeDisconnectRequest: read the current
disconnectRequest slot without any presence check and overwrite the
slot with a wrapper capturing what was read. -/
def customizeDisconnectRequest (p : SessionPrototype) : SessionPrototype :=
  { p with disconnectRequestSlot := some (Handler.wrappedDisconnect p.disconnectRequestSlot) }

/-- Embeds customizeNodeAdapterRequests: customize the launch request
and the disconnect request; the customizeAttachRequest call is
commented out in the source, so the attach slot is never touched. -/
def customizeNodeAdapterRequests (p : SessionPrototype) : SessionPrototype :=
  customizeDisconnectRequest (customizeLaunchRequest p)

/-! ## The reinitialization server -/

/-- The three source-map caches reachable from the live session. -/
structure SourceMaps where
  allSourceMaps : List (String × String)
  generatedToSourceMaps : List (String × String)
  sourceToGeneratedMaps : List (String × String)
deriving DecidableEq, Repr

/-- The part of the live session state the request handler reads and
writes: its optional source-map holder. -/
structure DebugSessionState where
  sourceMaps : Option SourceMaps
deriving DecidableEq, Repr

/-- A protocol event the request handler can emit on the session. -/
inductive AdapterEvent where
  | initialized
deriving DecidableEq, Repr

/-- Result of one request to the reinitialization server: the response
status code, the session state after the request, and the protocol
events emitted on the session. -/
structure ReinitResult where
  statusCode : Nat
  session : Option DebugSessionState
  events : List AdapterEvent
deriving DecidableEq, Repr

/-- Embeds the request handler passed to createServer: the status code
starts at 404; on the refreshBreakpoints url it becomes 200 and, when
the receiver is a live session, the three source-map caches are emptied
when a holder is present and an Initialized event is sent; every other
url leaves the session untouched and emits nothing. -/
def reinitializeServerHandler (reqUrl : String) (self : Option DebugSessionState) :
    ReinitResult :=
  if reqUrl = "/refreshBreakpoints" then
    match self with
    | some s =>
      let cleared : DebugSessionState :=
        match s.sourceMaps with
        | some _ => { sourceMaps := some { allSourceMaps := [], generatedToSourceMaps := [], sourceToGeneratedMaps := [] } }
        | none => s
      { statusCode := 200, session := some cleared, events := [AdapterEvent.initialized] }
    | none => { statusCode := 200, session := none, events := [] }
  else
    { statusCode := 404, session := self, events := [] }

end NodeDebugWrapper

namespace NodeDebugWrapper

/-- Spec-side definition, for refinement comparison with the source
join: the elements joined with a single space between consecutive
elements, written by direct recursion following the words of the spec. -/
def joinedWithSingleSpaces : List String → String
  | [] => ""
  | [x] => x
  | x :: xs => x ++ " " ++ joinedWithSingleSpaces xs

/-- Helper for relating the accumulator form of the library join to a
direct recursion: the separator-prefixed concatenation of a list. -/
def sepTail (sep : String) : List String → String
  | [] => ""
  | a :: as => sep ++ a ++ sepTail sep as

theorem intercalate_go_sepTail (sep : String) (as : List String) :
    ∀ acc, String.intercalate.go acc sep as = acc ++ sepTail sep as := by
  induction as with
  | nil =>
    intro acc
    simp [String.intercalate.go, sepTail, String.append_empty]
  | cons a as ih =>
    intro acc
    simp [String.intercalate.go, sepTail, ih, String.append_assoc]

theorem joinedWithSingleSpaces_cons (as : List String) :
    ∀ a, joinedWithSingleSpaces (a :: as) = a ++ sepTail " " as := by
  induction as with
  | nil =>
    intro a
    simp [joinedWithSingleSpaces, sepTail, String.append_empty]
  | cons b bs ih =>
    intro a
    rw [show joinedWithSingleSpaces (a :: b :: bs)
          = a ++ " " ++ joinedWithSingleSpaces (b :: bs) from rfl,
        ih b]
    simp [sepTail, String.append_assoc]

theorem intercalate_space_eq_joined (xs : List String) :
    String.intercalate " " xs = joinedWithSingleSpaces xs := by
  cases xs with
  | nil => rfl
  | cons a as =>
    rw [joinedWithSingleSpaces_cons]
    exact intercalate_go_sepTail " " as a

/-- Claim C1: for every valid LaunchArguments record, the vector
written into args.args has length 4 or 5, its first four slots are the
platform, the bound port rendered as a string, the provided relative
project path or the platform default, and the target or simulator, the
fifth slot exists exactly when the extra-log field is defined and then
holds the joined extra-log string, and no other input field (the only
remaining field is program) influences the vector. -/
theorem sanitizedArgs_shape (args : LaunchArgs) :
    ((sanitizedArgs args).length = 4 ∨ (sanitizedArgs args).length = 5) ∧
    (sanitizedArgs args).get? 0 = some args.platform ∧
    (sanitizedArgs args).get? 1
        = some (toString (debugServerListeningPort args.internalDebuggerPort)) ∧
    (sanitizedArgs args).get? 2
        = some (args.iosRelativeProjectPath.getD DEFAULT_IOS_PROJECT_RELATIVE_PATH) ∧
    (sanitizedArgs args).get? 3 = some (jsOrString args.target "simulator") ∧
    ((sanitizedArgs args).length = 5 ↔ args.logCatArguments.isSome = true) ∧
    (∀ lc, args.logCatArguments = some lc →
        (sanitizedArgs args).get? 4 = some (parseLogCatArguments lc)) ∧
    (∀ q, sanitizedArgs { args with program := q } = sanitizedArgs args) := by
  cases hlc : args.logCatArguments <;> simp [sanitizedArgs, hlc]

/-- Witness for C1 at a concrete input with a defined scalar extra-log
field and two program values. -/
theorem sanitizedArgs_shape_witness :
    (sanitizedArgs ⟨"/p", "android", none, none, none,
        some (LogCatArgs.scalar "-v")⟩).get? 4 = some "-v" ∧
    sanitizedArgs ⟨"/q", "android", none, none, none, some (LogCatArgs.scalar "-v")⟩
      = sanitizedArgs ⟨"/p", "android", none, none, none, some (LogCatArgs.scalar "-v")⟩ := by
  constructor
  · have h := (sanitizedArgs_shape ⟨"/p", "android", none, none, none,
        some (LogCatArgs.scalar "-v")⟩).2.2.2.2.2.2.1 (LogCatArgs.scalar "-v") rfl
    rw [h]
    rfl
  · exact (sanitizedArgs_shape ⟨"/p", "android", none, none, none,
        some (LogCatArgs.scalar "-v")⟩).2.2.2.2.2.2.2 "/q"

/-- Claim C2: the wrapped disconnect operation invokes the captured
original disconnect exactly once, with the live session instance as
receiver and the same response and args, in all three outcome cases of
the stop-monitoring call: resolution, rejection, and synchronous throw. -/
theorem disconnectRequest_calls_original_exactly_once {σ ρ α : Type}
    (outcome : StopOutcome) (receiver : σ) (response : ρ) (args : α) :
    (disconnectRequest outcome receiver response args).filter isCallOriginalDisconnect
      = [DisconnectEvent.callOriginalDisconnect receiver response args] := by
  cases outcome <;> rfl

/-- Counterexample to claim C3: after customizeNodeAdapterRequests runs
on a prototype holding three original handlers, the attach slot still
holds the untouched original handler, which is not a wrapper, because
the customizeAttachRequest call is commented out in the source. -/
theorem customizeNodeAdapterRequests_attach_untouched_cex :
    ((customizeNodeAdapterRequests
        ⟨some (Handler.original "launchRequest"),
         some (Handler.original "attachRequest"),
         some (Handler.original "disconnectRequest")⟩).attachRequestSlot
      = some (Handler.original "attachRequest")) ∧
    Handler.isWrapper (Handler.original "attachRequest") = false :=
  ⟨rfl, rfl⟩

/-- Claim C3 as amended: installation replaces exactly two of the three
named operations, launch and disconnect, with wrappers capturing the
previous slot contents, and leaves the attach operation slot untouched. -/
theorem customizeNodeAdapterRequests_wraps_two (p : SessionPrototype) :
    customizeNodeAdapterRequests p
      = ⟨some (Handler.wrappedLaunch p.launchRequestSlot),
         p.attachRequestSlot,
         some (Handler.wrappedDisconnect p.disconnectRequestSlot)⟩ :=
  rfl

/-- Counterexample to claim C9: on a prototype with all three
operations absent, installation does not raise: it completes and
installs wrappers capturing the absent originals, so a wrapper around a
missing original operation is silently installed. -/
theorem customizeNodeAdapterRequests_missing_originals_cex :
    ((customizeNodeAdapterRequests ⟨none, none, none⟩).launchRequestSlot
        = some (Handler.wrappedLaunch none)) ∧
    ((customizeNodeAdapterRequests ⟨none, none, none⟩).disconnectRequestSlot
        = some (Handler.wrappedDisconnect none)) :=
  ⟨rfl, rfl⟩

/-- Claim C9 as amended: when the original launch and disconnect
operations are absent at installation time, installation nevertheless
completes and silently installs wrappers that captured the absent
originals; failure can only surface later, when a wrapper tries to
invoke the missing original. -/
theorem customizeNodeAdapterRequests_no_failfast (p : SessionPrototype)
    (hl : p.launchRequestSlot = none) (hd : p.disconnectRequestSlot = none) :
    (customizeNodeAdapterRequests p).launchRequestSlot
        = some (Handler.wrappedLaunch none) ∧
    (customizeNodeAdapterRequests p).disconnectRequestSlot
        = some (Handler.wrappedDisconnect none) := by
  constructor
  · simp [customizeNodeAdapterRequests, customizeLaunchRequest,
      customizeDisconnectRequest, hl]
  · simp [customizeNodeAdapterRequests, customizeLaunchRequest,
      customizeDisconnectRequest, hd]

/-- Witness for the amended C9 at a prototype that has an attach
handler but lacks launch and disconnect. -/
theorem customizeNodeAdapterRequests_no_failfast_witness :
    (customizeNodeAdapterRequests
        ⟨none, some (Handler.original "attachRequest"), none⟩).launchRequestSlot
        = some (Handler.wrappedLaunch none) ∧
    (customizeNodeAdapterRequests
        ⟨none, some (Handler.original "attachRequest"), none⟩).disconnectRequestSlot
        = some (Handler.wrappedDisconnect none) :=
  customizeNodeAdapterRequests_no_failfast
    ⟨none, some (Handler.original "attachRequest"), none⟩ rfl rfl


/-- Claim C4: with a live associated session, a request for the
refreshBreakpoints path gets status 200, clears the source-map caches
when a holder is present, leaves the session as-is when none is, and
emits exactly one Initialized event; a request for any other path gets
status 404, leaves the session untouched and emits no event. -/
theorem reinitializeServerHandler_routing (s : DebugSessionState) (url : String)
    (h : url ≠ "/refreshBreakpoints") :
    (reinitializeServerHandler "/refreshBreakpoints" (some s)).statusCode = 200 ∧
    (reinitializeServerHandler "/refreshBreakpoints" (some s)).events
        = [AdapterEvent.initialized] ∧
    (∀ m, s.sourceMaps = some m →
        (reinitializeServerHandler "/refreshBreakpoints" (some s)).session
          = some ⟨some ⟨[], [], []⟩⟩) ∧
    (s.sourceMaps = none →
        (reinitializeServerHandler "/refreshBreakpoints" (some s)).session = some s) ∧
    (reinitializeServerHandler url (some s)).statusCode = 404 ∧
    (reinitializeServerHandler url (some s)).events = [] ∧
    (reinitializeServerHandler url (some s)).session = some s := by
  cases hm : s.sourceMaps <;> simp [reinitializeServerHandler, h, hm]

/-- Witness for C4 at a session with one cached source map and the
unrecognized path slash-other. -/
theorem reinitializeServerHandler_routing_witness :
    (reinitializeServerHandler "/refreshBreakpoints"
        (some ⟨some ⟨[("g", "s")], [], []⟩⟩)).statusCode = 200 ∧
    (reinitializeServerHandler "/refreshBreakpoints"
        (some ⟨some ⟨[("g", "s")], [], []⟩⟩)).session = some ⟨some ⟨[], [], []⟩⟩ ∧
    (reinitializeServerHandler "/other"
        (some ⟨some ⟨[("g", "s")], [], []⟩⟩)).statusCode = 404 ∧
    (reinitializeServerHandler "/other"
        (some ⟨some ⟨[("g", "s")], [], []⟩⟩)).events = [] := by
  have h := reinitializeServerHandler_routing ⟨some ⟨[("g", "s")], [], []⟩⟩ "/other"
      (by decide)
  exact ⟨h.1, h.2.2.1 ⟨[("g", "s")], [], []⟩ rfl, h.2.2.2.2.1, h.2.2.2.2.2.1⟩

/-- Claim C5: the control-server port, also rendered into slot two of
the downstream vector, equals the parsed internalDebuggerPort argument
whenever that argument is present and parses to a positive integer, and
equals the default 9090 whenever the argument is absent or does not
parse to a number at all. -/
theorem debugServerListeningPort_resolution (args : LaunchArgs) :
    (∀ s n, args.internalDebuggerPort = some s → jsParseInt s = some n → 0 < n →
        debugServerListeningPort args.internalDebuggerPort = n ∧
        (sanitizedArgs args).get? 1 = some (toString n)) ∧
    ((args.internalDebuggerPort = none ∨
        (∃ s, args.internalDebuggerPort = some s ∧ jsParseInt s = none)) →
      debugServerListeningPort args.internalDebuggerPort = 9090 ∧
      (sanitizedArgs args).get? 1 = some "9090") := by
  constructor
  · intro s n hs hp hpos
    have hport : debugServerListeningPort args.internalDebuggerPort = n := by
      simp [debugServerListeningPort, hs, hp, (show n ≠ 0 by omega)]
    refine ⟨hport, ?_⟩
    cases hlc : args.logCatArguments <;> simp [sanitizedArgs, hlc, hport]
  · intro hcase
    have hport : debugServerListeningPort args.internalDebuggerPort = 9090 := by
      rcases hcase with h | ⟨s, hs, hp⟩
      · simp [debugServerListeningPort, h]
      · simp [debugServerListeningPort, hs, hp]
    refine ⟨hport, ?_⟩
    cases hlc : args.logCatArguments <;>
      simp [sanitizedArgs, hlc, hport] <;> rfl

/-- Witness for C5 at the ports 8080, absent, and the non-numeric abc. -/
theorem debugServerListeningPort_resolution_witness :
    debugServerListeningPort (some "8080") = 8080 ∧
    (sanitizedArgs ⟨"/p", "ios", some "8080", none, none, none⟩).get? 1 = some "8080" ∧
    debugServerListeningPort none = 9090 ∧
    debugServerListeningPort (some "abc") = 9090 := by
  have h1 := (debugServerListeningPort_resolution
      ⟨"/p", "ios", some "8080", none, none, none⟩).1 "8080" 8080 rfl (by decide)
      (by decide)
  have h2 := (debugServerListeningPort_resolution
      ⟨"/p", "ios", none, none, none, none⟩).2 (Or.inl rfl)
  have h3 := (debugServerListeningPort_resolution
      ⟨"/p", "ios", some "abc", none, none, none⟩).2 (Or.inr ⟨"abc", rfl, by decide⟩)
  exact ⟨h1.1, h1.2.trans (by decide), h2.1, h3.1⟩

/-- Claim C6: a defined extra-log field that is a sequence yields a
trailing element equal to its elements joined with single spaces, a
scalar one yields the scalar unchanged, and an absent one appends no
fifth element. The join is compared against a direct recursive
rendering of the words of the spec. -/
theorem parseLogCatArguments_correct (args : LaunchArgs) :
    (∀ xs, parseLogCatArguments (LogCatArgs.arr xs) = joinedWithSingleSpaces xs) ∧
    (∀ s, parseLogCatArguments (LogCatArgs.scalar s) = s) ∧
    (args.logCatArguments = none → (sanitizedArgs args).length = 4) ∧
    (∀ lc, args.logCatArguments = some lc →
        (sanitizedArgs args).length = 5 ∧
        (sanitizedArgs args).get? 4 = some (parseLogCatArguments lc)) := by
  refine ⟨fun xs => intercalate_space_eq_joined xs, fun s => rfl, ?_, ?_⟩
  · intro h
    simp [sanitizedArgs, h]
  · intro lc h
    simp [sanitizedArgs, h]

/-- Witness for C6 at the sequence from the spec, a scalar, and an
absent extra-log field. -/
theorem parseLogCatArguments_correct_witness :
    parseLogCatArguments (LogCatArgs.arr ["-b", "main", "-v"]) = "-b main -v" ∧
    parseLogCatArguments (LogCatArgs.scalar "-v") = "-v" ∧
    (sanitizedArgs ⟨"/p", "android", none, none, none, none⟩).length = 4 ∧
    (sanitizedArgs ⟨"/p", "android", none, none, none,
        some (LogCatArgs.arr ["-b", "main", "-v"])⟩).get? 4 = some "-b main -v" := by
  have hthm := parseLogCatArguments_correct
      ⟨"/p", "android", none, none, none, some (LogCatArgs.arr ["-b", "main", "-v"])⟩
  have hnone := (parseLogCatArguments_correct
      ⟨"/p", "android", none, none, none, none⟩).2.2.1 rfl
  refine ⟨(hthm.1 ["-b", "main", "-v"]).trans (by decide), hthm.2.1 "-v", hnone, ?_⟩
  have h := (hthm.2.2.2 (LogCatArgs.arr ["-b", "main", "-v"]) rfl).2
  rw [h]
  decide

/-- Counterexample to claim C7: for the launch scenario with program
slash-proj slash-ios slash-App.xcodeproj slash-dotdot, the downstream
vector is as claimed, but the project root resolves to the filesystem
root, not to slash-proj: the trailing dotdot of the program path makes
the double parent step of the source climb past proj. -/
theorem projectRootPath_scenario_cex :
    sanitizedArgs ⟨"/proj/ios/App.xcodeproj/..", "ios", none, none, none, none⟩
        = ["ios", "9090", DEFAULT_IOS_PROJECT_RELATIVE_PATH, "simulator"] ∧
    projectRootPath ⟨"/proj/ios/App.xcodeproj/..", "ios", none, none, none, none⟩
        = "/" ∧
    projectRootPath ⟨"/proj/ios/App.xcodeproj/..", "ios", none, none, none, none⟩
        ≠ "/proj" := by
  refine ⟨by decide, by decide, by decide⟩

/-- Claim C7 as amended: the wrapped launch computes the project root
as the parent-of-parent of the normalized program path; in the stated
scenario the downstream vector is as claimed but the root resolves to
the filesystem root, while the program without the trailing dotdot
resolves to slash-proj. -/
theorem projectRootPath_scenario_amended :
    sanitizedArgs ⟨"/proj/ios/App.xcodeproj/..", "ios", none, none, none, none⟩
        = ["ios", "9090", DEFAULT_IOS_PROJECT_RELATIVE_PATH, "simulator"] ∧
    projectRootPath ⟨"/proj/ios/App.xcodeproj/..", "ios", none, none, none, none⟩
        = "/" ∧
    projectRootPath ⟨"/proj/ios/App.xcodeproj", "ios", none, none, none, none⟩
        = "/proj" := by
  refine ⟨by decide, by decide, by decide⟩

/-- Claim C8: a listen failure of the control server never escapes the
wrapped launch: with or without a bind error the trace delegates to the
original launch exactly once with the sanitized vector, and the failing
trace extends the successful one by exactly the telemetry event named
reinitializeServerError and the two adapter output events. -/
theorem launchRequest_bind_failure_contained (args : LaunchArgs) (err : String) :
    (launchRequest args (some err)).filter isCallOriginalLaunch
        = [LaunchEvent.callOriginalLaunch (sanitizedArgs args)] ∧
    (launchRequest args none).filter isCallOriginalLaunch
        = [LaunchEvent.callOriginalLaunch (sanitizedArgs args)] ∧
    launchRequest args (some err)
        = launchRequest args none ++
          [LaunchEvent.telemetrySimpleEvent "reinitializeServerError",
           LaunchEvent.outputStderrEvent ("Error in debug adapter server: " ++ err),
           LaunchEvent.outputBreakpointsWarningEvent] :=
  ⟨rfl, rfl, rfl⟩

/-- Claim C10: the defaulting asymmetry of the sanitizer: an empty (or
otherwise falsy) target is replaced by simulator in slot four, while an
empty iosRelativeProjectPath is forwarded verbatim in slot three, the
platform default being triggered only by null or undefined there. -/
theorem sanitizer_defaulting_asymmetry (args : LaunchArgs) :
    (args.target = some "" → (sanitizedArgs args).get? 3 = some "simulator") ∧
    (args.target = none → (sanitizedArgs args).get? 3 = some "simulator") ∧
    (args.iosRelativeProjectPath = some "" →
        isNullOrUndefined args.iosRelativeProjectPath = false ∧
        (sanitizedArgs args).get? 2 = some "") ∧
    (args.iosRelativeProjectPath = none →
        isNullOrUndefined args.iosRelativeProjectPath = true ∧
        (sanitizedArgs args).get? 2 = some DEFAULT_IOS_PROJECT_RELATIVE_PATH) := by
  refine ⟨?_, ?_, ?_, ?_⟩ <;> intro h <;>
    cases hlc : args.logCatArguments <;>
      simp [sanitizedArgs, jsOrString, isNullOrUndefined, h, hlc]

/-- Witness for C10 at empty-string target and relative path, and at an
absent relative path. -/
theorem sanitizer_defaulting_asymmetry_witness :
    (sanitizedArgs ⟨"/p", "ios", none, some "", some "", none⟩).get? 3
        = some "simulator" ∧
    (sanitizedArgs ⟨"/p", "ios", none, some "", some "", none⟩).get? 2 = some "" ∧
    (sanitizedArgs ⟨"/p", "ios", none, none, none, none⟩).get? 2
        = some DEFAULT_IOS_PROJECT_RELATIVE_PATH := by
  have h1 := sanitizer_defaulting_asymmetry ⟨"/p", "ios", none, some "", some "", none⟩
  have h2 := sanitizer_defaulting_asymmetry ⟨"/p", "ios", none, none, none, none⟩
  exact ⟨h1.1 rfl, (h1.2.2.1 rfl).2, (h2.2.2.2 rfl).2⟩

end NodeDebugWrapper
